import Mathlib

/-!
# Tip4 / Tip4' / Tip5 hash family: a shallow embedding

This file embeds the core of the Tip hash family (the NTT-based MDS kernel,
the permutation round structure, the sponge entry points `hash`,
`hash_elements`, `merge`, `merge_with_int`, and the auxiliary coefficient
container) over the Goldilocks field `ZMod P`, `P = 2^64 - 2^32 + 1`, and
proves the specification's claims about them.

The field-element layer (`math::fields::f64`) is an external collaborator of
the repository; its interface (`inner`, `from_mont`, `mont_red_cst`, `exp7`,
`BaseElement::new`) is modelled from the specification: elements are values
of `ZMod P`, held canonically in Montgomery form, with radix `R = 2^64 mod P`.
-/

namespace Tip

/-- The Goldilocks prime `p = 2^64 - 2^32 + 1` (`BaseElement::MODULUS`). -/
def P : ℕ := 18446744069414584321

/-- A field element: the external field adapter works in `ℤ/pℤ`. -/
abbrev F : Type := ZMod P

instance : NeZero P := ⟨by decide⟩

/-- The Montgomery radix `R = 2^64 mod p = 2^32 - 1`, modelled from the spec's
description of the external field adapter (elements are stored in Montgomery
form scaled by `R`). -/
def montR : F := 4294967295

/-- `R⁻¹ mod p`, the inverse Montgomery radix (a fixed constant of the
modelled adapter). -/
def montRInv : F := 18446744065119617025

/-- Modelled from the spec: the adapter's raw accessor `inner() -> u64`
returns the (canonical, per the spec's invariant) Montgomery representation
`x * R mod p` of a field element. -/
def inner (x : F) : ℕ := (x * montR).val

/-- Modelled from the spec: the adapter's raw 128-bit Montgomery reduction
`mont_red_cst(u128) -> u64`, `c ↦ c * R⁻¹ mod p`. -/
def mont_red_cst (c : ℕ) : ℕ := ((c : F) * montRInv).val

/-- Modelled from the spec: the adapter's constructor `from_mont(u64)`,
returning the element whose Montgomery representation is `w`. -/
def from_mont (w : ℕ) : F := (w : F) * montRInv

/-- Modelled from the spec: the adapter's seventh-power map `exp7()`. -/
def exp7 (x : F) : F := x ^ 7

/-- A width-16 sponge state (`[BaseElement; 16]`). -/
abbrev State16 : Type := Fin 16 → F

/-- A width-12 sponge state (`[BaseElement; 12]`). -/
abbrev State12 : Type := Fin 12 → F

/-! ## The NTT-based MDS kernel (`mds_f64_16x16.rs`)

The in-place butterflies of `ntt_noswap` / `intt_noswap` are embedded as
update pairs on the state, applied in the source's loop order via folds. -/

/-- One forward-NTT butterfly of `ntt_noswap`:
`let u = x[j]; let v = x[k] * zeta; x[j] = u + v; x[k] = u - v`. -/
def butterfly (zeta : F) (j k : Fin 16) (x : State16) : State16 :=
  let u := x j
  let v := x k * zeta
  Function.update (Function.update x j (u + v)) k (u - v)

/-- One inverse-NTT butterfly of `intt_noswap`:
`let u = x[k] * zeta; let v = x[j]; x[k] = v - u; x[j] = v + u`.
(The first inverse pass omits the multiplication; it is recovered here with
`zeta = 1`.) -/
def ibutterfly (zeta : F) (j k : Fin 16) (x : State16) : State16 :=
  let u := x k * zeta
  let v := x j
  Function.update (Function.update x k (v - u)) j (v + u)

/-- `POWERS_OF_OMEGA_BITREVERSED` of `ntt_noswap`. -/
def POWERS_OF_OMEGA_BITREVERSED : Fin 8 → F :=
  ![1, 281474976710656, 18446744069397807105, 18446742969902956801,
    17293822564807737345, 4096, 4503599626321920, 18446744000695107585]

/-- `POWERS_OF_OMEGA_INVERSE` of `intt_noswap`. -/
def POWERS_OF_OMEGA_INVERSE : Fin 8 → F :=
  ![1, 68719476736, 1099511627520, 18446744069414580225,
    18446462594437873665, 18442240469788262401, 16777216, 1152921504606846976]

/-- `ntt_noswap`, outer loop iteration 1: pairs `(j, j+8)`, zeta = `ONE`. -/
def nttPass1 (x : State16) : State16 :=
  (List.range 8).foldl
    (fun x j => butterfly 1 (j : Fin 16) ((j + 8 : ℕ) : Fin 16) x) x

/-- `ntt_noswap`, outer loop iteration 2: `i < 2`, `s = 8i`, pairs `(s+j, s+j+4)`. -/
def nttPass2 (x : State16) : State16 :=
  (List.range 2).foldl (fun x i =>
    (List.range 4).foldl (fun x j =>
      butterfly (POWERS_OF_OMEGA_BITREVERSED (i : Fin 8))
        ((8 * i + j : ℕ) : Fin 16) ((8 * i + j + 4 : ℕ) : Fin 16) x) x) x

/-- `ntt_noswap`, outer loop iteration 3: `i < 4`, `s = 4i`, pairs `(s+j, s+j+2)`. -/
def nttPass3 (x : State16) : State16 :=
  (List.range 4).foldl (fun x i =>
    (List.range 2).foldl (fun x j =>
      butterfly (POWERS_OF_OMEGA_BITREVERSED (i : Fin 8))
        ((4 * i + j : ℕ) : Fin 16) ((4 * i + j + 2 : ℕ) : Fin 16) x) x) x

/-- `ntt_noswap`, outer loop iteration 4: `i < 8`, `s = 2i`, pair `(s, s+1)`. -/
def nttPass4 (x : State16) : State16 :=
  (List.range 8).foldl (fun x i =>
    butterfly (POWERS_OF_OMEGA_BITREVERSED (i : Fin 8))
      ((2 * i : ℕ) : Fin 16) ((2 * i + 1 : ℕ) : Fin 16) x) x

/-- `ntt_noswap` of `mds_f64_16x16.rs`: its four outer-loop iterations in
order, butterflies in the source's order. -/
def ntt_noswap (x : State16) : State16 :=
  nttPass4 (nttPass3 (nttPass2 (nttPass1 x)))

/-- `intt_noswap`, outer loop iteration 1: the eight unrolled inner-loop
blocks, pairs `(2k, 2k+1)`, no zeta multiplication (zeta = 1). -/
def inttPass1 (x : State16) : State16 :=
  (List.range 8).foldl
    (fun x k => ibutterfly 1 ((2 * k : ℕ) : Fin 16) ((2 * k + 1 : ℕ) : Fin 16) x) x

/-- `intt_noswap`, outer loop iteration 2: `j < 2`,
zeta = `POWERS_OF_OMEGA_INVERSE[4j]`, the four unrolled inner-loop blocks at
offsets 0, 4, 8, 12, pairs `(b+j, b+j+2)`. -/
def inttPass2 (x : State16) : State16 :=
  (List.range 2).foldl (fun x j =>
    [0, 4, 8, 12].foldl (fun x b =>
      ibutterfly (POWERS_OF_OMEGA_INVERSE ((4 * j : ℕ) : Fin 8))
        ((b + j : ℕ) : Fin 16) ((b + j + 2 : ℕ) : Fin 16) x) x) x

/-- `intt_noswap`, outer loop iteration 3: `j < 4`,
zeta = `POWERS_OF_OMEGA_INVERSE[2j]`, the two unrolled inner-loop blocks at
offsets 0, 8, pairs `(b+j, b+j+4)`. -/
def inttPass3 (x : State16) : State16 :=
  (List.range 4).foldl (fun x j =>
    [0, 8].foldl (fun x b =>
      ibutterfly (POWERS_OF_OMEGA_INVERSE ((2 * j : ℕ) : Fin 8))
        ((b + j : ℕ) : Fin 16) ((b + j + 4 : ℕ) : Fin 16) x) x) x

/-- `intt_noswap`, outer loop iteration 4: `j < 8`,
zeta = `POWERS_OF_OMEGA_INVERSE[j]`, pairs `(j, j+8)`. -/
def inttPass4 (x : State16) : State16 :=
  (List.range 8).foldl (fun x j =>
    ibutterfly (POWERS_OF_OMEGA_INVERSE (j : Fin 8))
      ((j : ℕ) : Fin 16) ((j + 8 : ℕ) : Fin 16) x) x

/-- `intt_noswap` of `mds_f64_16x16.rs`: its four outer-loop iterations in
order, butterflies in the source's order. -/
def intt_noswap (x : State16) : State16 :=
  inttPass4 (inttPass3 (inttPass2 (inttPass1 x)))

/-- The fixed `SHIFTS` sequence of `mds_multiply`. -/
def SHIFTS : Fin 16 → ℕ := ![4, 1, 4, 3, 3, 7, 0, 5, 1, 5, 0, 2, 6, 2, 4, 1]

/-- The two middle loops of `mds_multiply`: lift each lane's 64-bit Montgomery
word into a 128-bit value shifted left by `SHIFTS[i]` (exact multiplication by
`2^SHIFTS[i]`, since `inner x < p < 2^64` and the shift is at most 7), then
Montgomery-reduce each lane back to a field element. -/
def mont_shift (state : State16) : State16 :=
  fun i => from_mont (mont_red_cst (inner (state i) * 2 ^ SHIFTS i))

/-- `mds_multiply` of `mds_f64_16x16.rs`: forward no-swap NTT, per-lane
shift-and-Montgomery-reduce, inverse no-swap NTT. -/
def mds_multiply (state : State16) : State16 :=
  intt_noswap (mont_shift (ntt_noswap state))

/-- The 16x16 circulant MDS matrix `MDS` of `tip4/mod.rs`; the `MDS` block of `tip5/mod.rs` is entry-for-entry identical -/
def MDS16 : Matrix (Fin 16) (Fin 16) F :=
  Matrix.of
  ![
   ![18446742626305572865, 12103477672291081763, 2060678330275253760, 2379906257383880660, 13229869363167232, 12103947580051285184, 3631871650260640512, 18375880622847003104, 18446743700047396865, 7491684177549991903, 16328081945490043393, 11603770461046470701, 18433515290973110273, 5185371269165997376, 14872856315882446081, 4542937756286289441],
   ![4542937756286289441, 18446742626305572865, 12103477672291081763, 2060678330275253760, 2379906257383880660, 13229869363167232, 12103947580051285184, 3631871650260640512, 18375880622847003104, 18446743700047396865, 7491684177549991903, 16328081945490043393, 11603770461046470701, 18433515290973110273, 5185371269165997376, 14872856315882446081],
   ![14872856315882446081, 4542937756286289441, 18446742626305572865, 12103477672291081763, 2060678330275253760, 2379906257383880660, 13229869363167232, 12103947580051285184, 3631871650260640512, 18375880622847003104, 18446743700047396865, 7491684177549991903, 16328081945490043393, 11603770461046470701, 18433515290973110273, 5185371269165997376],
   ![5185371269165997376, 14872856315882446081, 4542937756286289441, 18446742626305572865, 12103477672291081763, 2060678330275253760, 2379906257383880660, 13229869363167232, 12103947580051285184, 3631871650260640512, 18375880622847003104, 18446743700047396865, 7491684177549991903, 16328081945490043393, 11603770461046470701, 18433515290973110273],
   ![18433515290973110273, 5185371269165997376, 14872856315882446081, 4542937756286289441, 18446742626305572865, 12103477672291081763, 2060678330275253760, 2379906257383880660, 13229869363167232, 12103947580051285184, 3631871650260640512, 18375880622847003104, 18446743700047396865, 7491684177549991903, 16328081945490043393, 11603770461046470701],
   ![11603770461046470701, 18433515290973110273, 5185371269165997376, 14872856315882446081, 4542937756286289441, 18446742626305572865, 12103477672291081763, 2060678330275253760, 2379906257383880660, 13229869363167232, 12103947580051285184, 3631871650260640512, 18375880622847003104, 18446743700047396865, 7491684177549991903, 16328081945490043393],
   ![16328081945490043393, 11603770461046470701, 18433515290973110273, 5185371269165997376, 14872856315882446081, 4542937756286289441, 18446742626305572865, 12103477672291081763, 2060678330275253760, 2379906257383880660, 13229869363167232, 12103947580051285184, 3631871650260640512, 18375880622847003104, 18446743700047396865, 7491684177549991903],
   ![7491684177549991903, 16328081945490043393, 11603770461046470701, 18433515290973110273, 5185371269165997376, 14872856315882446081, 4542937756286289441, 18446742626305572865, 12103477672291081763, 2060678330275253760, 2379906257383880660, 13229869363167232, 12103947580051285184, 3631871650260640512, 18375880622847003104, 18446743700047396865],
   ![18446743700047396865, 7491684177549991903, 16328081945490043393, 11603770461046470701, 18433515290973110273, 5185371269165997376, 14872856315882446081, 4542937756286289441, 18446742626305572865, 12103477672291081763, 2060678330275253760, 2379906257383880660, 13229869363167232, 12103947580051285184, 3631871650260640512, 18375880622847003104],
   ![18375880622847003104, 18446743700047396865, 7491684177549991903, 16328081945490043393, 11603770461046470701, 18433515290973110273, 5185371269165997376, 14872856315882446081, 4542937756286289441, 18446742626305572865, 12103477672291081763, 2060678330275253760, 2379906257383880660, 13229869363167232, 12103947580051285184, 3631871650260640512],
   ![3631871650260640512, 18375880622847003104, 18446743700047396865, 7491684177549991903, 16328081945490043393, 11603770461046470701, 18433515290973110273, 5185371269165997376, 14872856315882446081, 4542937756286289441, 18446742626305572865, 12103477672291081763, 2060678330275253760, 2379906257383880660, 13229869363167232, 12103947580051285184],
   ![12103947580051285184, 3631871650260640512, 18375880622847003104, 18446743700047396865, 7491684177549991903, 16328081945490043393, 11603770461046470701, 18433515290973110273, 5185371269165997376, 14872856315882446081, 4542937756286289441, 18446742626305572865, 12103477672291081763, 2060678330275253760, 2379906257383880660, 13229869363167232],
   ![13229869363167232, 12103947580051285184, 3631871650260640512, 18375880622847003104, 18446743700047396865, 7491684177549991903, 16328081945490043393, 11603770461046470701, 18433515290973110273, 5185371269165997376, 14872856315882446081, 4542937756286289441, 18446742626305572865, 12103477672291081763, 2060678330275253760, 2379906257383880660],
   ![2379906257383880660, 13229869363167232, 12103947580051285184, 3631871650260640512, 18375880622847003104, 18446743700047396865, 7491684177549991903, 16328081945490043393, 11603770461046470701, 18433515290973110273, 5185371269165997376, 14872856315882446081, 4542937756286289441, 18446742626305572865, 12103477672291081763, 2060678330275253760],
   ![2060678330275253760, 2379906257383880660, 13229869363167232, 12103947580051285184, 3631871650260640512, 18375880622847003104, 18446743700047396865, 7491684177549991903, 16328081945490043393, 11603770461046470701, 18433515290973110273, 5185371269165997376, 14872856315882446081, 4542937756286289441, 18446742626305572865, 12103477672291081763],
   ![12103477672291081763, 2060678330275253760, 2379906257383880660, 13229869363167232, 12103947580051285184, 3631871650260640512, 18375880622847003104, 18446743700047396865, 7491684177549991903, 16328081945490043393, 11603770461046470701, 18433515290973110273, 5185371269165997376, 14872856315882446081, 4542937756286289441, 18446742626305572865]]

/-- Tip4 round constants `ARK` of `tip4/mod.rs` -/
def Tip4.ARK : Fin 5 → Fin 16 → F :=
  ![
   ![2773304578597675691, 6577486792949837289, 852496478296018148, 16274170413028223467, 14605556261657613220, 6152165206438359141, 15057099056019636764, 13517296912152680108, 17054742691533556812, 6341951011695620811, 10169721560204385358, 11465675366522771128, 2603780028585251745, 7284707811386517733, 15657741767723286768, 7510473197084447883],
   ![6824566801901421045, 3248632376753140628, 11802262156923856194, 2029950643527673097, 12955837704434711946, 3025867304903145181, 7509795665398296293, 16685304952218962269, 4567878395159684384, 1972986699562740861, 14185129589909338578, 11979170182009124666, 15476483599310168521, 5279342618637217663, 5634964063642576200, 1484231609263707727],
   ![16667572506962507444, 15637294586264079072, 17032005680486883117, 4187237233419016829, 2139125161119014851, 2682540547565227553, 2952252929783518056, 5910024256582240379, 9257057599927667657, 3512513996070927994, 1183473989326272222, 11010640797567402430, 4585718743403387242, 12713202526603908035, 10934964261715330312, 7364737023790477939],
   ![14718583028145944926, 15831238359525517579, 205679036149192672, 3414264619954948141, 3328070596152154954, 18409310207893973078, 15910675967671337140, 14764179545750094344, 11120646421218400919, 860545110039176289, 12250343788408695703, 5975459723373140194, 10523684464911246857, 6947239181784728254, 2198247791395281312, 7594475151066749733],
   ![11451408280463063245, 13798728584773383083, 818092332272994362, 7802557965910998345, 17589411335691969176, 9709960486609042571, 14026276246063895922, 4657968305375643740, 16055925911245599980, 17152524033963190290, 3342740266691127965, 11358178825351148260, 5862165971954099526, 12235899178513255067, 2927725875639817919, 11784104199241925722]]

/-- Tip5 round constants `ARK` of `tip5/mod.rs` -/
def Tip5.ARK : Fin 5 → Fin 16 → F :=
  ![
   ![13630775303355457758, 16896927574093233874, 10379449653650130495, 1965408364413093495, 15232538947090185111, 15892634398091747074, 3989134140024871768, 2851411912127730865, 8709136439293758776, 3694858669662939734, 12692440244315327141, 10722316166358076749, 12745429320441639448, 17932424223723990421, 7558102534867937463, 15551047435855531404],
   ![17532528648579384106, 5216785850422679555, 15418071332095031847, 11921929762955146258, 9738718993677019874, 3464580399432997147, 13408434769117164050, 264428218649616431, 4436247869008081381, 4063129435850804221, 2865073155741120117, 5749834437609765994, 6804196764189408435, 17060469201292988508, 9475383556737206708, 12876344085611465020],
   ![13835756199368269249, 1648753455944344172, 9836124473569258483, 12867641597107932229, 11254152636692960595, 16550832737139861108, 11861573970480733262, 1256660473588673495, 13879506000676455136, 10564103842682358721, 16142842524796397521, 3287098591948630584, 685911471061284805, 5285298776918878023, 18310953571768047354, 3142266350630002035],
   ![549990724933663297, 4901984846118077401, 11458643033696775769, 8706785264119212710, 12521758138015724072, 11877914062416978196, 11333318251134523752, 3933899631278608623, 16635128972021157924, 10291337173108950450, 4142107155024199350, 16973934533787743537, 11068111539125175221, 17546769694830203606, 5315217744825068993, 4609594252909613081],
   ![3350107164315270407, 17715942834299349177, 9600609149219873996, 12894357635820003949, 4597649658040514631, 7735563950920491847, 1663379455870887181, 13889298103638829706, 7375530351220884434, 3502022433285269151, 9231805330431056952, 9252272755288523725, 10014268662326746219, 15565031632950843234, 1209725273521819323, 6024642864597845108]]

/-- The 12x12 circulant MDS matrix `MDS` of `tip4_prime/mod.rs` -/
def MDS12 : Matrix (Fin 12) (Fin 12) F :=
  Matrix.of
  ![
   ![7, 23, 8, 26, 13, 10, 9, 7, 6, 22, 21, 8],
   ![8, 7, 23, 8, 26, 13, 10, 9, 7, 6, 22, 21],
   ![21, 8, 7, 23, 8, 26, 13, 10, 9, 7, 6, 22],
   ![22, 21, 8, 7, 23, 8, 26, 13, 10, 9, 7, 6],
   ![6, 22, 21, 8, 7, 23, 8, 26, 13, 10, 9, 7],
   ![7, 6, 22, 21, 8, 7, 23, 8, 26, 13, 10, 9],
   ![9, 7, 6, 22, 21, 8, 7, 23, 8, 26, 13, 10],
   ![10, 9, 7, 6, 22, 21, 8, 7, 23, 8, 26, 13],
   ![13, 10, 9, 7, 6, 22, 21, 8, 7, 23, 8, 26],
   ![26, 13, 10, 9, 7, 6, 22, 21, 8, 7, 23, 8],
   ![8, 26, 13, 10, 9, 7, 6, 22, 21, 8, 7, 23],
   ![23, 8, 26, 13, 10, 9, 7, 6, 22, 21, 8, 7]]

/-- Tip4' round constants `ARK` of `tip4_prime/mod.rs` -/
def Tip4p.ARK : Fin 5 → Fin 12 → F :=
  ![
   ![6389859829374159539, 17229380705756925792, 1685504065768360085, 11495601389602964927, 14590499332882967787, 1025546974836270924, 6534388361641189904, 83528329195322609, 16825958830920599305, 14367535913531541706, 9373882113169352939, 15206069388815085038],
   ![11737921204895515252, 16675938809814109201, 3081949179470873665, 14408516998600831324, 1734666691041050162, 6965669371710145373, 2627545038496711157, 4131567233355311863, 6663606854236214944, 4356348818072343221, 16977499875487476107, 7133528005210469376],
   ![6576072100995654613, 10365773285517510429, 5099169911046663151, 8204666535893592250, 8197747920434370952, 14055144323705103704, 3823557958183613205, 13605446815893856691, 5735413688512934979, 6851805580612830374, 15826549711290838538, 12685129780251896487],
   ![14630567176945838998, 10914381549746387617, 7421170053404255007, 729729048984908966, 14034826357100489727, 1838990003271062491, 1898220471987185721, 16545038689555322876, 8094685071437843378, 12850344507116018299, 12312176261866659209, 15951038048410299964],
   ![10272996019760781151, 15604072713712758006, 16041565754647052886, 14050558224171946805, 7797167814871903221, 14703987605672997265, 489387044347918799, 16525276081598735217, 18290527903441405997, 14091853142054427371, 10013792448977695701, 5570882487753758060]]

/-- The shared 256-entry S-box lookup table `LOOKUP_TABLE` (identical in tip4, tip4_prime and tip5). -/
def LOOKUP_TABLE : List ℕ :=
  [0, 7, 26, 63, 124, 215, 85, 254, 214, 228, 45, 185, 140, 173, 33, 240, 29, 177, 176, 32, 8, 
   110, 87, 202, 204, 99, 150, 106, 230, 14, 235, 128, 213, 239, 212, 138, 23, 130, 208, 6, 44, 
   71, 93, 116, 146, 189, 251, 81, 199, 97, 38, 28, 73, 179, 95, 84, 152, 48, 35, 119, 49, 88, 
   242, 3, 148, 169, 72, 120, 62, 161, 166, 83, 175, 191, 137, 19, 100, 129, 112, 55, 221, 102, 
   218, 61, 151, 237, 68, 164, 17, 147, 46, 234, 203, 216, 22, 141, 65, 57, 123, 12, 244, 54, 
   219, 231, 96, 77, 180, 154, 5, 253, 133, 165, 98, 195, 205, 134, 245, 30, 9, 188, 59, 142, 
   186, 197, 181, 144, 92, 31, 224, 163, 111, 74, 58, 69, 113, 196, 67, 246, 225, 10, 121, 50, 
   60, 157, 90, 122, 2, 250, 101, 75, 178, 159, 24, 36, 201, 11, 243, 132, 198, 190, 114, 233, 
   39, 52, 21, 209, 108, 238, 91, 187, 18, 104, 194, 37, 153, 34, 200, 143, 126, 155, 236, 118, 
   64, 80, 172, 89, 94, 193, 135, 183, 86, 107, 252, 13, 167, 206, 136, 220, 207, 103, 171, 160, 
   76, 182, 227, 217, 158, 56, 174, 4, 66, 109, 139, 162, 184, 211, 249, 47, 125, 232, 117, 43, 
   16, 42, 127, 20, 241, 25, 149, 105, 156, 51, 53, 168, 145, 247, 223, 79, 78, 226, 15, 222, 
   82, 115, 70, 210, 27, 41, 1, 170, 40, 131, 192, 229, 248, 255]

/-! ## Byte helpers and the split-and-lookup S-box -/

/-- `u64::from_le_bytes`: assemble a list of bytes little-endian. -/
def u64_from_le_bytes (bs : List ℕ) : ℕ :=
  bs.foldr (fun b acc => b + 256 * acc) 0

/-- `u64::to_le_bytes`: the eight little-endian bytes of a 64-bit word. -/
def u64_to_le_bytes (w : ℕ) : List ℕ :=
  [w % 256, w / 256 % 256, w / 256 ^ 2 % 256, w / 256 ^ 3 % 256,
   w / 256 ^ 4 % 256, w / 256 ^ 5 % 256, w / 256 ^ 6 % 256, w / 256 ^ 7 % 256]

/-- `apply_split_and_lookup` (identical in `tip4/mod.rs`, `tip4_prime/mod.rs`
and `tip5/mod.rs`): expose the 8 bytes of the Montgomery form of `x`,
substitute each through `LOOKUP_TABLE`, reassemble little-endian, reinterpret
as a Montgomery form. -/
def apply_split_and_lookup (x : F) : F :=
  from_mont (u64_from_le_bytes ((u64_to_le_bytes (inner x)).map
    (fun b => LOOKUP_TABLE.getD b 0)))

/-! ## The sponge shell

`hash` processes the byte string in 7-byte chunks (`bytes.chunks(7)`); its
absorption loop threads the sponge state, the in-loop counter `i` (which is
both the rate cursor and the value compared against `num_elements - 1`), and
the 8-byte buffer `buf`. A `copy_from_slice` with mismatched lengths and an
out-of-bounds `buf[chunk_len]` write are Rust panics, embedded as `none`. -/

/-- `bytes.chunks(7)`: all chunks have 7 bytes except a shorter final one. -/
def chunks7 : List ℕ → List (List ℕ)
  | [] => []
  | b0 :: b1 :: b2 :: b3 :: b4 :: b5 :: b6 :: b7 :: rest =>
      [b0, b1, b2, b3, b4, b5, b6] :: chunks7 (b7 :: rest)
  | l => [l]

/-- The `num_elements` computation of `hash`:
`if bytes.len() % 7 == 0 { len / 7 } else { len / 7 + 1 }`. -/
def num_elements (bytes : List ℕ) : ℕ :=
  if bytes.length % 7 = 0 then bytes.length / 7 else bytes.length / 7 + 1

/-- Accumulator of the byte-absorption loop of `hash`: the sponge state, the
loop counter `i`, and the 8-byte buffer `buf`.  `vals` additionally records
each absorbed `u64` value (auxiliary observation only; it influences
nothing). -/
structure AbsorbAcc where
  state : State16
  i : ℕ
  buf : List ℕ
  vals : List ℕ

/-- Accumulator of the byte-absorption loop of the width-12 `hash`. -/
structure AbsorbAcc12 where
  state : State12
  i : ℕ
  buf : List ℕ
  vals : List ℕ

/-! ## Tip4_256 (`tip4/mod.rs`) -/

namespace Tip4

/-- `STATE_WIDTH = 16`. -/
def STATE_WIDTH : ℕ := 16

/-- `RATE_WIDTH = RATE_RANGE.end - RATE_RANGE.start = 12`. -/
def RATE_WIDTH : ℕ := 12

/-- `CAPACITY_RANGE.start = 12`, the lane holding the length tag. -/
def CAPACITY_START : Fin 16 := 12

/-- `DIGEST_SIZE = DIGEST_RANGE.end - DIGEST_RANGE.start = 4`. -/
def DIGEST_SIZE : ℕ := 4

/-- `NUM_ROUNDS = 5`. -/
def NUM_ROUNDS : ℕ := 5

/-- A Tip4 digest: the first `DIGEST_SIZE = 4` state lanes. -/
abbrev Digest : Type := Fin 4 → F

/-- `state[DIGEST_RANGE]`: the digest is the first 4 lanes of the state. -/
def digestOf (state : State16) : Digest :=
  fun d => state (Fin.castLE (by decide) d)

/-- `apply_sbox`: split-and-lookup on lanes 0..3, `exp7` on lanes 4..15, as
the source's sixteen in-place assignments. -/
def apply_sbox (state : State16) : State16 :=
  let state := Function.update state 0 (apply_split_and_lookup (state 0))
  let state := Function.update state 1 (apply_split_and_lookup (state 1))
  let state := Function.update state 2 (apply_split_and_lookup (state 2))
  let state := Function.update state 3 (apply_split_and_lookup (state 3))
  let state := Function.update state 4 (exp7 (state 4))
  let state := Function.update state 5 (exp7 (state 5))
  let state := Function.update state 6 (exp7 (state 6))
  let state := Function.update state 7 (exp7 (state 7))
  let state := Function.update state 8 (exp7 (state 8))
  let state := Function.update state 9 (exp7 (state 9))
  let state := Function.update state 10 (exp7 (state 10))
  let state := Function.update state 11 (exp7 (state 11))
  let state := Function.update state 12 (exp7 (state 12))
  let state := Function.update state 13 (exp7 (state 13))
  let state := Function.update state 14 (exp7 (state 14))
  let state := Function.update state 15 (exp7 (state 15))
  state

/-- `apply_mds`: delegates to `mds_multiply` of `mds_f64_16x16.rs`. -/
def apply_mds (state : State16) : State16 :=
  mds_multiply state

/-- `add_constants`: add `ark[i]` to lane `i`. -/
def add_constants (state : State16) (ark : Fin 16 → F) : State16 :=
  fun i => state i + ark i

/-- `apply_round`: S-box, then MDS, then round-constant injection. -/
def apply_round (state : State16) (round : ℕ) : State16 :=
  add_constants (apply_mds (apply_sbox state)) (ARK (round : Fin 5))

/-- `apply_permutation`: `apply_round` for `i in 0..NUM_ROUNDS`. -/
def apply_permutation (state : State16) : State16 :=
  (List.range NUM_ROUNDS).foldl (fun state i => apply_round state i) state

/-- The state initialization of `hash`: all zeros except
`state[CAPACITY_RANGE.start] = num_elements`. -/
def hash_init (n : ℕ) : State16 :=
  Function.update (fun _ => 0) CAPACITY_START (n : F)

/-- One iteration of the absorption loop of `hash`. Note that the branch
`i < num_elements - 1` tests the loop counter `i`, which is reset to `0`
after every `RATE_WIDTH` absorptions. -/
def hash_absorb_step (n : ℕ) (acc : AbsorbAcc) (chunk : List ℕ) :
    Option AbsorbAcc :=
  let newbuf : Option (List ℕ) :=
    if acc.i < n - 1 then
      -- buf[..7].copy_from_slice(chunk): panics unless chunk has 7 bytes
      if chunk.length = 7 then some (chunk ++ acc.buf.drop 7) else none
    else
      -- buf = [0u8; 8]; buf[..chunk_len] = chunk; buf[chunk_len] = 1
      if chunk.length < 8 then
        some (chunk ++ 1 :: List.replicate (8 - (chunk.length + 1)) 0)
      else none
  match newbuf with
  | none => none
  | some buf =>
    let v := u64_from_le_bytes buf
    let state := Function.update acc.state (acc.i : Fin 16)
      (acc.state (acc.i : Fin 16) + (v : F))
    let i := acc.i + 1
    if i % RATE_WIDTH = 0 then some ⟨apply_permutation state, 0, buf, acc.vals ++ [v]⟩
    else some ⟨state, i, buf, acc.vals ++ [v]⟩

/-- The absorption loop of `hash` over all chunks, from the initial state,
counter 0 and zeroed buffer. -/
def hash_run (bytes : List ℕ) : Option AbsorbAcc :=
  (chunks7 bytes).foldlM (hash_absorb_step (num_elements bytes))
    ⟨hash_init (num_elements bytes), 0, List.replicate 8 0, []⟩

/-- `Tip4_256::hash`: absorb the 7-byte chunks, apply the final permutation
when a partial rate block remains, return the first 4 lanes. `none` embeds a
Rust panic. -/
def hash (bytes : List ℕ) : Option Digest :=
  match hash_run bytes with
  | none => none
  | some acc =>
    let state := if acc.i > 0 then apply_permutation acc.state else acc.state
    some (digestOf state)

/-- The sequence of `u64` values absorbed by `hash` (read off the loop). -/
def absorbed_values (bytes : List ℕ) : Option (List ℕ) :=
  (hash_run bytes).map AbsorbAcc.vals

/-- The state initialization of `hash_elements`: all zeros except
`state[CAPACITY_RANGE.start] = elements.len()`. -/
def hash_elements_init (elements : List F) : State16 :=
  Function.update (fun _ => 0) CAPACITY_START ((elements.length : ℕ) : F)

/-- One iteration of the absorption loop of `hash_elements`. -/
def hash_elements_absorb (acc : State16 × ℕ) (element : F) : State16 × ℕ :=
  let state := Function.update acc.1 (acc.2 : Fin 16) (acc.1 (acc.2 : Fin 16) + element)
  let i := acc.2 + 1
  if i % RATE_WIDTH = 0 then (apply_permutation state, 0) else (state, i)

/-- `Tip4_256::hash_elements` on base-field elements. -/
def hash_elements (elements : List F) : Digest :=
  let acc := elements.foldl hash_elements_absorb (hash_elements_init elements, 0)
  let state := if acc.2 > 0 then apply_permutation acc.1 else acc.1
  digestOf state

/-- The state initialization of `merge`: the two digests in lanes 0..7
(`INPUT2_RANGE.end = 8`), `state[CAPACITY_RANGE.start] = RATE_WIDTH`. -/
def merge_init (d1 d2 : Digest) : State16 :=
  let state : State16 := fun _ => 0
  let state := Function.update state 0 (d1 0)
  let state := Function.update state 1 (d1 1)
  let state := Function.update state 2 (d1 2)
  let state := Function.update state 3 (d1 3)
  let state := Function.update state 4 (d2 0)
  let state := Function.update state 5 (d2 1)
  let state := Function.update state 6 (d2 2)
  let state := Function.update state 7 (d2 3)
  Function.update state CAPACITY_START ((RATE_WIDTH : ℕ) : F)

/-- `Tip4_256::merge` of `values = [d1, d2]`. -/
def merge (d1 d2 : Digest) : Digest :=
  digestOf (apply_permutation (merge_init d1 d2))

/-- The state initialization of `merge_with_int`: the seed in lanes 0..3
(`INPUT1_RANGE`), `value` in lane 4 (`INPUT2_RANGE.start`); if
`value < MODULUS` the tag is `DIGEST_SIZE + 1`, else lane 5 gets
`value / MODULUS` and the tag is `DIGEST_SIZE + 2`. -/
def merge_with_int_init (seed : Digest) (value : ℕ) : State16 :=
  let state : State16 := fun _ => 0
  let state := Function.update state 0 (seed 0)
  let state := Function.update state 1 (seed 1)
  let state := Function.update state 2 (seed 2)
  let state := Function.update state 3 (seed 3)
  let state := Function.update state 4 ((value : ℕ) : F)
  if value < P then
    Function.update state CAPACITY_START ((DIGEST_SIZE + 1 : ℕ) : F)
  else
    let state := Function.update state 5 ((value / P : ℕ) : F)
    Function.update state CAPACITY_START ((DIGEST_SIZE + 2 : ℕ) : F)

/-- `Tip4_256::merge_with_int` on a `u64` value (`value < 2^64`). -/
def merge_with_int (seed : Digest) (value : ℕ) : Digest :=
  digestOf (apply_permutation (merge_with_int_init seed value))

end Tip4

/-! ## Tip5_320 (`tip5/mod.rs`) -/

namespace Tip5

/-- `STATE_WIDTH = 16`. -/
def STATE_WIDTH : ℕ := 16

/-- `RATE_WIDTH = 10`. -/
def RATE_WIDTH : ℕ := 10

/-- `CAPACITY_RANGE.start = 10`. -/
def CAPACITY_START : Fin 16 := 10

/-- `DIGEST_SIZE = 5`. -/
def DIGEST_SIZE : ℕ := 5

/-- `NUM_ROUNDS = 5`. -/
def NUM_ROUNDS : ℕ := 5

/-- A Tip5 digest: the first `DIGEST_SIZE = 5` state lanes. -/
abbrev Digest : Type := Fin 5 → F

/-- `state[DIGEST_RANGE]`: the digest is the first 5 lanes of the state. -/
def digestOf (state : State16) : Digest :=
  fun d => state (Fin.castLE (by decide) d)

/-- `apply_sbox` of Tip5: identical shape to Tip4's (lanes 0..3 lookup,
lanes 4..15 `exp7`). -/
def apply_sbox (state : State16) : State16 :=
  let state := Function.update state 0 (apply_split_and_lookup (state 0))
  let state := Function.update state 1 (apply_split_and_lookup (state 1))
  let state := Function.update state 2 (apply_split_and_lookup (state 2))
  let state := Function.update state 3 (apply_split_and_lookup (state 3))
  let state := Function.update state 4 (exp7 (state 4))
  let state := Function.update state 5 (exp7 (state 5))
  let state := Function.update state 6 (exp7 (state 6))
  let state := Function.update state 7 (exp7 (state 7))
  let state := Function.update state 8 (exp7 (state 8))
  let state := Function.update state 9 (exp7 (state 9))
  let state := Function.update state 10 (exp7 (state 10))
  let state := Function.update state 11 (exp7 (state 11))
  let state := Function.update state 12 (exp7 (state 12))
  let state := Function.update state 13 (exp7 (state 13))
  let state := Function.update state 14 (exp7 (state 14))
  let state := Function.update state 15 (exp7 (state 15))
  state

/-- `apply_mds` of Tip5: the same `mds_multiply` of `mds_f64_16x16.rs`. -/
def apply_mds (state : State16) : State16 :=
  mds_multiply state

/-- `add_constants` of Tip5. -/
def add_constants (state : State16) (ark : Fin 16 → F) : State16 :=
  fun i => state i + ark i

/-- `apply_round` of Tip5: S-box, then MDS, then round constants. -/
def apply_round (state : State16) (round : ℕ) : State16 :=
  add_constants (apply_mds (apply_sbox state)) (ARK (round : Fin 5))

/-- `apply_permutation` of Tip5. -/
def apply_permutation (state : State16) : State16 :=
  (List.range NUM_ROUNDS).foldl (fun state i => apply_round state i) state

/-- The state initialization of Tip5's `hash_elements`. -/
def hash_elements_init (elements : List F) : State16 :=
  Function.update (fun _ => 0) CAPACITY_START ((elements.length : ℕ) : F)

/-- One iteration of the absorption loop of Tip5's `hash_elements`. -/
def hash_elements_absorb (acc : State16 × ℕ) (element : F) : State16 × ℕ :=
  let state := Function.update acc.1 (acc.2 : Fin 16) (acc.1 (acc.2 : Fin 16) + element)
  let i := acc.2 + 1
  if i % RATE_WIDTH = 0 then (apply_permutation state, 0) else (state, i)

/-- `Tip5_320::hash_elements` on base-field elements. -/
def hash_elements (elements : List F) : Digest :=
  let acc := elements.foldl hash_elements_absorb (hash_elements_init elements, 0)
  let state := if acc.2 > 0 then apply_permutation acc.1 else acc.1
  digestOf state

/-- The state initialization of Tip5's `merge`: the two digests fill the full
rate `state[RATE_RANGE]` (lanes 0..9), `state[CAPACITY_RANGE.start] =
RATE_WIDTH`. -/
def merge_init (d1 d2 : Digest) : State16 :=
  let state : State16 := fun _ => 0
  let state := Function.update state 0 (d1 0)
  let state := Function.update state 1 (d1 1)
  let state := Function.update state 2 (d1 2)
  let state := Function.update state 3 (d1 3)
  let state := Function.update state 4 (d1 4)
  let state := Function.update state 5 (d2 0)
  let state := Function.update state 6 (d2 1)
  let state := Function.update state 7 (d2 2)
  let state := Function.update state 8 (d2 3)
  let state := Function.update state 9 (d2 4)
  Function.update state CAPACITY_START ((RATE_WIDTH : ℕ) : F)

/-- `Tip5_320::merge` of `values = [d1, d2]`. -/
def merge (d1 d2 : Digest) : Digest :=
  digestOf (apply_permutation (merge_init d1 d2))

/-- The state initialization of Tip5's `merge_with_int`: seed in lanes 0..4
(`INPUT1_RANGE = 0..5`), `value` in lane 5 (`INPUT2_RANGE.start`); if
`value < MODULUS` the tag is `DIGEST_SIZE + 1 = 6`, else lane 6 gets
`value / MODULUS` and the tag is `DIGEST_SIZE + 2 = 7`. -/
def merge_with_int_init (seed : Digest) (value : ℕ) : State16 :=
  let state : State16 := fun _ => 0
  let state := Function.update state 0 (seed 0)
  let state := Function.update state 1 (seed 1)
  let state := Function.update state 2 (seed 2)
  let state := Function.update state 3 (seed 3)
  let state := Function.update state 4 (seed 4)
  let state := Function.update state 5 ((value : ℕ) : F)
  if value < P then
    Function.update state CAPACITY_START ((DIGEST_SIZE + 1 : ℕ) : F)
  else
    let state := Function.update state 6 ((value / P : ℕ) : F)
    Function.update state CAPACITY_START ((DIGEST_SIZE + 2 : ℕ) : F)

/-- `Tip5_320::merge_with_int` on a `u64` value. -/
def merge_with_int (seed : Digest) (value : ℕ) : Digest :=
  digestOf (apply_permutation (merge_with_int_init seed value))

end Tip5

/-! ## Tip4p_256 (`tip4_prime/mod.rs`)

The width-12 MDS kernel `mds_f64_12x12.rs` is not among the repository's
files; only its `MDS` constant (in `tip4_prime/mod.rs`) and its behavioural
contract are. Per the spec (4.B), the width-12 kernel is bit-exact with the
naive 12x12 matrix-vector product, so it is modelled as that product. -/

/-- Modelled from the spec: `mds_multiply` of the missing `mds_f64_12x12.rs`,
as the naive product with the `MDS` constant of `tip4_prime/mod.rs` (spec
4.B: "implementers may fall back to direct 12x12 multiplication as long as
bit-exact equivalence with the naive computation is preserved"). -/
def mds_multiply12 (state : State12) : State12 :=
  fun i => ∑ j, MDS12 i j * state j

namespace Tip4p

/-- `STATE_WIDTH = 12`. -/
def STATE_WIDTH : ℕ := 12

/-- `RATE_WIDTH = 8`. -/
def RATE_WIDTH : ℕ := 8

/-- `CAPACITY_RANGE.start = 8`. -/
def CAPACITY_START : Fin 12 := 8

/-- `DIGEST_SIZE = 4`. -/
def DIGEST_SIZE : ℕ := 4

/-- `NUM_ROUNDS = 5`. -/
def NUM_ROUNDS : ℕ := 5

/-- A Tip4' digest: the first `DIGEST_SIZE = 4` state lanes. -/
abbrev Digest : Type := Fin 4 → F

/-- `state[DIGEST_RANGE]`: the digest is the first 4 lanes of the state. -/
def digestOf (state : State12) : Digest :=
  fun d => state (Fin.castLE (by decide) d)

/-- `apply_sbox` of Tip4': lanes 0..3 lookup, lanes 4..11 `exp7`. -/
def apply_sbox (state : State12) : State12 :=
  let state := Function.update state 0 (apply_split_and_lookup (state 0))
  let state := Function.update state 1 (apply_split_and_lookup (state 1))
  let state := Function.update state 2 (apply_split_and_lookup (state 2))
  let state := Function.update state 3 (apply_split_and_lookup (state 3))
  let state := Function.update state 4 (exp7 (state 4))
  let state := Function.update state 5 (exp7 (state 5))
  let state := Function.update state 6 (exp7 (state 6))
  let state := Function.update state 7 (exp7 (state 7))
  let state := Function.update state 8 (exp7 (state 8))
  let state := Function.update state 9 (exp7 (state 9))
  let state := Function.update state 10 (exp7 (state 10))
  let state := Function.update state 11 (exp7 (state 11))
  state

/-- `apply_mds` of Tip4': delegates to the (modelled) width-12 kernel. -/
def apply_mds (state : State12) : State12 :=
  mds_multiply12 state

/-- `add_constants` of Tip4'. -/
def add_constants (state : State12) (ark : Fin 12 → F) : State12 :=
  fun i => state i + ark i

/-- `apply_round` of Tip4': S-box, then MDS, then round constants. -/
def apply_round (state : State12) (round : ℕ) : State12 :=
  add_constants (apply_mds (apply_sbox state)) (ARK (round : Fin 5))

/-- `apply_permutation` of Tip4'. -/
def apply_permutation (state : State12) : State12 :=
  (List.range NUM_ROUNDS).foldl (fun state i => apply_round state i) state

/-- The state initialization of Tip4p's `hash_elements`. -/
def hash_elements_init (elements : List F) : State12 :=
  Function.update (fun _ => 0) CAPACITY_START ((elements.length : ℕ) : F)

/-- One iteration of the absorption loop of Tip4p's `hash_elements`. -/
def hash_elements_absorb (acc : State12 × ℕ) (element : F) : State12 × ℕ :=
  let state := Function.update acc.1 (acc.2 : Fin 12) (acc.1 (acc.2 : Fin 12) + element)
  let i := acc.2 + 1
  if i % RATE_WIDTH = 0 then (apply_permutation state, 0) else (state, i)

/-- `Tip4p_256::hash_elements` on base-field elements. -/
def hash_elements (elements : List F) : Digest :=
  let acc := elements.foldl hash_elements_absorb (hash_elements_init elements, 0)
  let state := if acc.2 > 0 then apply_permutation acc.1 else acc.1
  digestOf state

/-- The state initialization of Tip4p's `merge`: the two digests fill the
full rate `state[RATE_RANGE]` (lanes 0..7), tag `RATE_WIDTH = 8`. -/
def merge_init (d1 d2 : Digest) : State12 :=
  let state : State12 := fun _ => 0
  let state := Function.update state 0 (d1 0)
  let state := Function.update state 1 (d1 1)
  let state := Function.update state 2 (d1 2)
  let state := Function.update state 3 (d1 3)
  let state := Function.update state 4 (d2 0)
  let state := Function.update state 5 (d2 1)
  let state := Function.update state 6 (d2 2)
  let state := Function.update state 7 (d2 3)
  Function.update state CAPACITY_START ((RATE_WIDTH : ℕ) : F)

/-- `Tip4p_256::merge` of `values = [d1, d2]`. -/
def merge (d1 d2 : Digest) : Digest :=
  digestOf (apply_permutation (merge_init d1 d2))

end Tip4p

/-! ## AuxTraceRandElements (`air/src/air/coefficients.rs`) -/

/-- `AuxTraceRandElements<E>`: a vector of per-segment random-element
vectors. -/
structure AuxTraceRandElements (E : Type) where
  segments : List (List E)

/-- `AuxTraceRandElements::new()`: the empty set of random elements. -/
def AuxTraceRandElements.new (E : Type) : AuxTraceRandElements E :=
  ⟨[]⟩

/-- `AuxTraceRandElements::get_segment_elements(idx)`: `&self.0[idx]`; an
out-of-range index is a Rust panic, embedded as `none`. -/
def AuxTraceRandElements.get_segment_elements {E : Type}
    (s : AuxTraceRandElements E) (aux_segment_idx : ℕ) : Option (List E) :=
  s.segments.get? aux_segment_idx

/-- `AuxTraceRandElements::add_segment_elements(rand_elements)`:
`self.0.push(rand_elements)`. -/
def AuxTraceRandElements.add_segment_elements {E : Type}
    (s : AuxTraceRandElements E) (rand_elements : List E) : AuxTraceRandElements E :=
  ⟨s.segments ++ [rand_elements]⟩

/-- A container built from `new()` by a sequence of `add_segment_elements`
calls, one per entry of `segs` in order. -/
def AuxTraceRandElements.build {E : Type} (segs : List (List E)) : AuxTraceRandElements E :=
  segs.foldl AuxTraceRandElements.add_segment_elements (AuxTraceRandElements.new E)


/-- The `j`-th standard basis state: 1 in lane `j`, 0 elsewhere. -/
def basisVec (j : Fin 16) : State16 := fun k => if k = j then 1 else 0

/-- Absorption of a list of elements into consecutive rate lanes starting at
lane `i` (the common core of the `hash_elements` absorption loops: each
element is added into the lane under the cursor). -/
def absorbInto {n : ℕ} [NeZero n] (s : Fin n → F) (i : ℕ) : List F → (Fin n → F)
  | [] => s
  | e :: t => absorbInto (Function.update s (i : Fin n) (s (i : Fin n) + e)) (i + 1) t

/-- The common shape of the three `hash_elements` absorption-loop bodies,
with the rate width `R` and the permutation as parameters. -/
def absorbStepG {n : ℕ} [NeZero n] (R : ℕ) (perm : (Fin n → F) → (Fin n → F))
    (acc : (Fin n → F) × ℕ) (e : F) : (Fin n → F) × ℕ :=
  let state := Function.update acc.1 (acc.2 : Fin n) (acc.1 (acc.2 : Fin n) + e)
  let i := acc.2 + 1
  if i % R = 0 then (perm state, 0) else (state, i)

/-! ### Linearity of the MDS kernel -/

theorem butterfly_apply (z : F) (j k i : Fin 16) (x : State16) :
    butterfly z j k x i =
      if i = k then x j - x k * z else if i = j then x j + x k * z else x i := by
  simp only [butterfly, Function.update_apply]

theorem ibutterfly_apply (z : F) (j k i : Fin 16) (x : State16) :
    ibutterfly z j k x i =
      if i = j then x j + x k * z else if i = k then x j - x k * z else x i := by
  simp only [ibutterfly, Function.update_apply]

theorem butterfly_add (z : F) (j k : Fin 16) (x y : State16) :
    butterfly z j k (fun i => x i + y i) = fun i => butterfly z j k x i + butterfly z j k y i := by
  funext i
  simp only [butterfly_apply]
  split_ifs <;> ring

theorem butterfly_mul (z : F) (j k : Fin 16) (c : F) (x : State16) :
    butterfly z j k (fun i => c * x i) = fun i => c * butterfly z j k x i := by
  funext i
  simp only [butterfly_apply]
  split_ifs <;> ring

theorem ibutterfly_add (z : F) (j k : Fin 16) (x y : State16) :
    ibutterfly z j k (fun i => x i + y i) =
      fun i => ibutterfly z j k x i + ibutterfly z j k y i := by
  funext i
  simp only [ibutterfly_apply]
  split_ifs <;> ring

theorem ibutterfly_mul (z : F) (j k : Fin 16) (c : F) (x : State16) :
    ibutterfly z j k (fun i => c * x i) = fun i => c * ibutterfly z j k x i := by
  funext i
  simp only [ibutterfly_apply]
  split_ifs <;> ring

theorem foldl_add_of_step {α : Type} (g : State16 → α → State16)
    (hg : ∀ a x y, g (fun i => x i + y i) a = fun i => g x a i + g y a i) :
    ∀ (l : List α) (x y : State16),
      l.foldl g (fun i => x i + y i) = fun i => l.foldl g x i + l.foldl g y i := by
  intro l
  induction l with
  | nil => intro x y; rfl
  | cons a t ih =>
    intro x y
    simp only [List.foldl_cons]
    rw [hg a x y]
    exact ih _ _

theorem foldl_mul_of_step {α : Type} (g : State16 → α → State16)
    (hg : ∀ a c x, g (fun i => c * x i) a = fun i => c * g x a i) :
    ∀ (l : List α) (c : F) (x : State16),
      l.foldl g (fun i => c * x i) = fun i => c * l.foldl g x i := by
  intro l
  induction l with
  | nil => intro c x; rfl
  | cons a t ih =>
    intro c x
    simp only [List.foldl_cons]
    rw [hg a c x]
    exact ih _ _

theorem nttPass1_add (x y : State16) :
    nttPass1 (fun i => x i + y i) = fun i => nttPass1 x i + nttPass1 y i :=
  foldl_add_of_step _ (fun _ _ _ => butterfly_add _ _ _ _ _) _ x y

theorem nttPass2_add (x y : State16) :
    nttPass2 (fun i => x i + y i) = fun i => nttPass2 x i + nttPass2 y i := by
  unfold nttPass2
  refine foldl_add_of_step _ (fun a u v => ?_) _ x y
  exact foldl_add_of_step _ (fun b u v => butterfly_add _ _ _ _ _) _ u v

theorem nttPass3_add (x y : State16) :
    nttPass3 (fun i => x i + y i) = fun i => nttPass3 x i + nttPass3 y i := by
  unfold nttPass3
  refine foldl_add_of_step _ (fun a u v => ?_) _ x y
  exact foldl_add_of_step _ (fun b u v => butterfly_add _ _ _ _ _) _ u v

theorem nttPass4_add (x y : State16) :
    nttPass4 (fun i => x i + y i) = fun i => nttPass4 x i + nttPass4 y i :=
  foldl_add_of_step _ (fun _ _ _ => butterfly_add _ _ _ _ _) _ x y

theorem inttPass1_add (x y : State16) :
    inttPass1 (fun i => x i + y i) = fun i => inttPass1 x i + inttPass1 y i :=
  foldl_add_of_step _ (fun _ _ _ => ibutterfly_add _ _ _ _ _) _ x y

theorem inttPass2_add (x y : State16) :
    inttPass2 (fun i => x i + y i) = fun i => inttPass2 x i + inttPass2 y i := by
  unfold inttPass2
  refine foldl_add_of_step _ (fun a u v => ?_) _ x y
  exact foldl_add_of_step _ (fun b u v => ibutterfly_add _ _ _ _ _) _ u v

theorem inttPass3_add (x y : State16) :
    inttPass3 (fun i => x i + y i) = fun i => inttPass3 x i + inttPass3 y i := by
  unfold inttPass3
  refine foldl_add_of_step _ (fun a u v => ?_) _ x y
  exact foldl_add_of_step _ (fun b u v => ibutterfly_add _ _ _ _ _) _ u v

theorem inttPass4_add (x y : State16) :
    inttPass4 (fun i => x i + y i) = fun i => inttPass4 x i + inttPass4 y i :=
  foldl_add_of_step _ (fun _ _ _ => ibutterfly_add _ _ _ _ _) _ x y

theorem nttPass1_mul (c : F) (x : State16) :
    nttPass1 (fun i => c * x i) = fun i => c * nttPass1 x i :=
  foldl_mul_of_step _ (fun _ _ _ => butterfly_mul _ _ _ _ _) _ c x

theorem nttPass2_mul (c : F) (x : State16) :
    nttPass2 (fun i => c * x i) = fun i => c * nttPass2 x i := by
  unfold nttPass2
  refine foldl_mul_of_step _ (fun a d u => ?_) _ c x
  exact foldl_mul_of_step _ (fun b d u => butterfly_mul _ _ _ _ _) _ d u

theorem nttPass3_mul (c : F) (x : State16) :
    nttPass3 (fun i => c * x i) = fun i => c * nttPass3 x i := by
  unfold nttPass3
  refine foldl_mul_of_step _ (fun a d u => ?_) _ c x
  exact foldl_mul_of_step _ (fun b d u => butterfly_mul _ _ _ _ _) _ d u

theorem nttPass4_mul (c : F) (x : State16) :
    nttPass4 (fun i => c * x i) = fun i => c * nttPass4 x i :=
  foldl_mul_of_step _ (fun _ _ _ => butterfly_mul _ _ _ _ _) _ c x

theorem inttPass1_mul (c : F) (x : State16) :
    inttPass1 (fun i => c * x i) = fun i => c * inttPass1 x i :=
  foldl_mul_of_step _ (fun _ _ _ => ibutterfly_mul _ _ _ _ _) _ c x

theorem inttPass2_mul (c : F) (x : State16) :
    inttPass2 (fun i => c * x i) = fun i => c * inttPass2 x i := by
  unfold inttPass2
  refine foldl_mul_of_step _ (fun a d u => ?_) _ c x
  exact foldl_mul_of_step _ (fun b d u => ibutterfly_mul _ _ _ _ _) _ d u

theorem inttPass3_mul (c : F) (x : State16) :
    inttPass3 (fun i => c * x i) = fun i => c * inttPass3 x i := by
  unfold inttPass3
  refine foldl_mul_of_step _ (fun a d u => ?_) _ c x
  exact foldl_mul_of_step _ (fun b d u => ibutterfly_mul _ _ _ _ _) _ d u

theorem inttPass4_mul (c : F) (x : State16) :
    inttPass4 (fun i => c * x i) = fun i => c * inttPass4 x i :=
  foldl_mul_of_step _ (fun _ _ _ => ibutterfly_mul _ _ _ _ _) _ c x

theorem mont_shift_apply (x : State16) (i : Fin 16) :
    mont_shift x i = x i * (2 ^ SHIFTS i * montRInv) := by
  have h1 : ∀ a : F, ((a.val : ℕ) : F) = a := fun a => ZMod.natCast_rightInverse a
  have h2 : montRInv * montR = 1 := by decide
  show from_mont (mont_red_cst (inner (x i) * 2 ^ SHIFTS i)) = _
  unfold from_mont mont_red_cst inner
  push_cast
  rw [h1, h1]
  calc x i * montR * 2 ^ SHIFTS i * montRInv * montRInv
      = x i * 2 ^ SHIFTS i * montRInv * (montRInv * montR) := by ring
    _ = x i * (2 ^ SHIFTS i * montRInv) := by rw [h2]; ring

theorem mont_shift_add (x y : State16) :
    mont_shift (fun i => x i + y i) = fun i => mont_shift x i + mont_shift y i := by
  funext i
  simp only [mont_shift_apply]
  ring

theorem mont_shift_mul (c : F) (x : State16) :
    mont_shift (fun i => c * x i) = fun i => c * mont_shift x i := by
  funext i
  simp only [mont_shift_apply]
  ring

theorem mds_multiply_add (x y : State16) :
    mds_multiply (fun i => x i + y i) = fun i => mds_multiply x i + mds_multiply y i := by
  unfold mds_multiply ntt_noswap intt_noswap
  rw [nttPass1_add, nttPass2_add, nttPass3_add, nttPass4_add, mont_shift_add,
    inttPass1_add, inttPass2_add, inttPass3_add, inttPass4_add]

theorem mds_multiply_mul (c : F) (x : State16) :
    mds_multiply (fun i => c * x i) = fun i => c * mds_multiply x i := by
  unfold mds_multiply ntt_noswap intt_noswap
  rw [nttPass1_mul, nttPass2_mul, nttPass3_mul, nttPass4_mul, mont_shift_mul,
    inttPass1_mul, inttPass2_mul, inttPass3_mul, inttPass4_mul]


/-! ## The modelled Montgomery constants -/

theorem montR_mul_montRInv : montR * montRInv = 1 := by decide

/-! ## The sbox layers as lane-wise maps -/

theorem tip4_apply_sbox_eq (s : State16) :
    Tip4.apply_sbox s = fun (k : Fin 16) =>
      if (k : ℕ) < 4 then apply_split_and_lookup (s k) else exp7 (s k) := by
  funext k; fin_cases k <;> rfl

theorem tip5_apply_sbox_eq (s : State16) :
    Tip5.apply_sbox s = fun (k : Fin 16) =>
      if (k : ℕ) < 4 then apply_split_and_lookup (s k) else exp7 (s k) := by
  funext k; fin_cases k <;> rfl

theorem tip4p_apply_sbox_eq (s : State12) :
    Tip4p.apply_sbox s = fun (k : Fin 12) =>
      if (k : ℕ) < 4 then apply_split_and_lookup (s k) else exp7 (s k) := by
  funext k; fin_cases k <;> rfl

/-- C2: in all three instantiations the round function applies, in this
order, split-and-lookup to lanes 0..3 and the seventh power to the remaining
lanes, then the MDS multiplication, then adds `ARK[r][i]` to every lane `i`;
and `apply_permutation` is the round function at `r = 0, 1, 2, 3, 4` in that
order, with `NUM_ROUNDS = 5`. -/
theorem round_function_structure :
    (∀ (s : State16) (r : Fin 5),
      Tip4.apply_round s (r : ℕ) = fun i =>
        mds_multiply
          (fun (k : Fin 16) => if (k : ℕ) < 4 then apply_split_and_lookup (s k) else exp7 (s k)) i
          + Tip4.ARK r i) ∧
    (∀ s : State16,
      Tip4.apply_permutation s =
        Tip4.apply_round
          (Tip4.apply_round (Tip4.apply_round (Tip4.apply_round (Tip4.apply_round s 0) 1) 2) 3) 4) ∧
    Tip4.NUM_ROUNDS = 5 ∧
    (∀ (s : State16) (r : Fin 5),
      Tip5.apply_round s (r : ℕ) = fun i =>
        mds_multiply
          (fun (k : Fin 16) => if (k : ℕ) < 4 then apply_split_and_lookup (s k) else exp7 (s k)) i
          + Tip5.ARK r i) ∧
    (∀ s : State16,
      Tip5.apply_permutation s =
        Tip5.apply_round
          (Tip5.apply_round (Tip5.apply_round (Tip5.apply_round (Tip5.apply_round s 0) 1) 2) 3) 4) ∧
    Tip5.NUM_ROUNDS = 5 ∧
    (∀ (s : State12) (r : Fin 5),
      Tip4p.apply_round s (r : ℕ) = fun i =>
        mds_multiply12
          (fun (k : Fin 12) => if (k : ℕ) < 4 then apply_split_and_lookup (s k) else exp7 (s k)) i
          + Tip4p.ARK r i) ∧
    (∀ s : State12,
      Tip4p.apply_permutation s =
        Tip4p.apply_round
          (Tip4p.apply_round (Tip4p.apply_round (Tip4p.apply_round (Tip4p.apply_round s 0) 1) 2) 3) 4) ∧
    Tip4p.NUM_ROUNDS = 5 := by
  refine ⟨fun s r => ?_, fun s => rfl, rfl, fun s r => ?_, fun s => rfl, rfl,
    fun s r => ?_, fun s => rfl, rfl⟩
  · show Tip4.add_constants (Tip4.apply_mds (Tip4.apply_sbox s)) (Tip4.ARK (((r : ℕ) : Fin 5))) = _
    rw [tip4_apply_sbox_eq, Fin.cast_val_eq_self]
    rfl
  · show Tip5.add_constants (Tip5.apply_mds (Tip5.apply_sbox s)) (Tip5.ARK (((r : ℕ) : Fin 5))) = _
    rw [tip5_apply_sbox_eq, Fin.cast_val_eq_self]
    rfl
  · show Tip4p.add_constants (Tip4p.apply_mds (Tip4p.apply_sbox s)) (Tip4p.ARK (((r : ℕ) : Fin 5))) = _
    rw [tip4p_apply_sbox_eq, Fin.cast_val_eq_self]
    rfl

/-! ## The sponge shell: boundary behaviour of `hash` -/

/-- C4: for the empty byte string `hash` absorbs nothing, applies no
permutation, and returns the all-zeros digest (the length tag is 0), which is
also `hash_elements` of the empty element sequence; no panic occurs since
the chunk loop body never executes. -/
theorem tip4_hash_empty_is_zero_digest :
    Tip4.hash [] = some (fun _ => (0 : F)) ∧
    Tip4.hash_elements [] = (fun _ => (0 : F)) ∧
    Tip4.hash [] = some (Tip4.hash_elements []) := by
  have h2 : Tip4.digestOf (Tip4.hash_init 0) = fun _ => (0 : F) := by
    funext d; fin_cases d <;> decide
  have h3 : Tip4.hash_elements [] = fun _ => (0 : F) := by
    funext d; fin_cases d <;> decide
  refine ⟨?_, h3, ?_⟩
  · show some (Tip4.digestOf (Tip4.hash_init 0)) = _
    rw [h2]
  · show some (Tip4.digestOf (Tip4.hash_init 0)) = _
    rw [h3, h2]

/-- C3 (failing input): for 85 zero bytes (13 chunks, the last of length 1),
the last chunk reaches the loop with the reset counter `i = 0 < num_elements
- 1`, so `buf[..7].copy_from_slice(chunk)` is executed on a 1-byte chunk and
panics; `hash` never returns a digest to compare against `hash_elements`. -/
theorem tip4_hash_85_bytes_panics : Tip4.hash (List.replicate 85 0) = none := rfl

/-- C5 (failing input): for 91 zero bytes (13 chunks of 7 bytes), every
chunk, the last included, takes the `i < num_elements - 1` branch because the
counter was reset, so the pad byte 1 is never written: all thirteen absorbed
`u64` values are 0, and the final absorbed value has most significant byte 0,
not 1. -/
theorem tip4_hash_91_bytes_no_pad :
    Tip4.absorbed_values (List.replicate 91 0) = some (List.replicate 13 0) := by decide

/-! ## merge and merge_with_int state layouts -/

theorem tip4_merge_init_vec (d1 d2 : Tip4.Digest) :
    Tip4.merge_init d1 d2 =
      ![d1 0, d1 1, d1 2, d1 3, d2 0, d2 1, d2 2, d2 3,
        0, 0, 0, 0, (Tip4.RATE_WIDTH : F), 0, 0, 0] := by
  funext i; fin_cases i <;> rfl

theorem tip5_merge_init_vec (d1 d2 : Tip5.Digest) :
    Tip5.merge_init d1 d2 =
      ![d1 0, d1 1, d1 2, d1 3, d1 4, d2 0, d2 1, d2 2, d2 3, d2 4,
        (Tip5.RATE_WIDTH : F), 0, 0, 0, 0, 0] := by
  funext i; fin_cases i <;> rfl

/-- C7: Tip4's merge copies the 8 digest elements into rate lanes 0..7,
leaves rate lanes 8..11 zero, writes the tag RATE_WIDTH = 12 (which differs
from 8 in the field), and permutes once; Tip5's merge fills the whole
10-lane rate with the two 5-element digests and writes tag 10. -/
theorem merge_rate_layout (d1 d2 : Tip4.Digest) (e1 e2 : Tip5.Digest) :
    (Tip4.merge d1 d2 = Tip4.digestOf (Tip4.apply_permutation
      ![d1 0, d1 1, d1 2, d1 3, d2 0, d2 1, d2 2, d2 3,
        0, 0, 0, 0, (Tip4.RATE_WIDTH : F), 0, 0, 0])) ∧
    Tip4.RATE_WIDTH = 12 ∧ ((Tip4.RATE_WIDTH : ℕ) : F) ≠ ((8 : ℕ) : F) ∧
    (Tip5.merge e1 e2 = Tip5.digestOf (Tip5.apply_permutation
      ![e1 0, e1 1, e1 2, e1 3, e1 4, e2 0, e2 1, e2 2, e2 3, e2 4,
        (Tip5.RATE_WIDTH : F), 0, 0, 0, 0, 0])) ∧
    Tip5.RATE_WIDTH = 10 := by
  refine ⟨?_, rfl, by decide, ?_, rfl⟩
  · show Tip4.digestOf (Tip4.apply_permutation (Tip4.merge_init d1 d2)) = _
    rw [tip4_merge_init_vec]
  · show Tip5.digestOf (Tip5.apply_permutation (Tip5.merge_init e1 e2)) = _
    rw [tip5_merge_init_vec]

theorem div_P_eq_one (value : ℕ) (hv : value < 2 ^ 64) (h : ¬ value < P) :
    value / P = 1 := by
  refine Nat.div_eq_of_lt_le (by simpa using Nat.le_of_not_lt h) ?_
  have h2 : (2 : ℕ) ^ 64 ≤ (1 + 1) * P := by decide
  omega

set_option maxRecDepth 8000 in
/-- C6: merge_with_int writes the seed into lanes 0..DIGEST_SIZE, the value
mod p into lane DIGEST_SIZE, and either tag DIGEST_SIZE + 1 (value < p) or
the quotient value / p — which is exactly 1 — into lane DIGEST_SIZE + 1 with
tag DIGEST_SIZE + 2 (value >= p); one permutation is applied and the first
DIGEST_SIZE lanes are returned. Stated for Tip4_256 and Tip5_320. -/
theorem merge_with_int_layout (seed4 : Tip4.Digest) (seed5 : Tip5.Digest) (value : ℕ)
    (hv : value < 2 ^ 64) :
    (Tip4.merge_with_int seed4 value = Tip4.digestOf (Tip4.apply_permutation
      ![seed4 0, seed4 1, seed4 2, seed4 3, (value : F),
        if value < P then 0 else 1, 0, 0, 0, 0, 0, 0,
        if value < P then ((Tip4.DIGEST_SIZE + 1 : ℕ) : F) else ((Tip4.DIGEST_SIZE + 2 : ℕ) : F),
        0, 0, 0])) ∧
    (Tip5.merge_with_int seed5 value = Tip5.digestOf (Tip5.apply_permutation
      ![seed5 0, seed5 1, seed5 2, seed5 3, seed5 4, (value : F),
        if value < P then 0 else 1, 0, 0, 0,
        if value < P then ((Tip5.DIGEST_SIZE + 1 : ℕ) : F) else ((Tip5.DIGEST_SIZE + 2 : ℕ) : F),
        0, 0, 0, 0, 0])) ∧
    (P ≤ value → value / P = 1) := by
  refine ⟨?_, ?_, fun h => div_P_eq_one value hv (Nat.not_lt.mpr h)⟩
  · have h4 : Tip4.merge_with_int_init seed4 value =
        ![seed4 0, seed4 1, seed4 2, seed4 3, (value : F),
          if value < P then 0 else 1, 0, 0, 0, 0, 0, 0,
          if value < P then ((Tip4.DIGEST_SIZE + 1 : ℕ) : F) else ((Tip4.DIGEST_SIZE + 2 : ℕ) : F),
          0, 0, 0] := by
      by_cases hvP : value < P
      · simp only [Tip4.merge_with_int_init, if_pos hvP]
        funext i; fin_cases i <;> rfl
      · simp only [Tip4.merge_with_int_init, if_neg hvP, div_P_eq_one value hv hvP]
        funext i; fin_cases i <;> rfl
    show Tip4.digestOf (Tip4.apply_permutation (Tip4.merge_with_int_init seed4 value)) = _
    rw [h4]
  · have h5 : Tip5.merge_with_int_init seed5 value =
        ![seed5 0, seed5 1, seed5 2, seed5 3, seed5 4, (value : F),
          if value < P then 0 else 1, 0, 0, 0,
          if value < P then ((Tip5.DIGEST_SIZE + 1 : ℕ) : F) else ((Tip5.DIGEST_SIZE + 2 : ℕ) : F),
          0, 0, 0, 0, 0] := by
      by_cases hvP : value < P
      · simp only [Tip5.merge_with_int_init, if_pos hvP]
        funext i; fin_cases i <;> rfl
      · simp only [Tip5.merge_with_int_init, if_neg hvP, div_P_eq_one value hv hvP]
        funext i; fin_cases i <;> rfl
    show Tip5.digestOf (Tip5.apply_permutation (Tip5.merge_with_int_init seed5 value)) = _
    rw [h5]

theorem merge_with_int_layout_witness :
    (Tip4.merge_with_int (fun _ => 0) (2 ^ 64 - 1) = Tip4.digestOf (Tip4.apply_permutation
      ![(fun _ => (0 : F)) 0, (fun _ => (0 : F)) 1, (fun _ => (0 : F)) 2, (fun _ => (0 : F)) 3,
        ((2 ^ 64 - 1 : ℕ) : F),
        if (2 ^ 64 - 1 : ℕ) < P then 0 else 1, 0, 0, 0, 0, 0, 0,
        if (2 ^ 64 - 1 : ℕ) < P then ((Tip4.DIGEST_SIZE + 1 : ℕ) : F)
          else ((Tip4.DIGEST_SIZE + 2 : ℕ) : F),
        0, 0, 0])) ∧
    (Tip5.merge_with_int (fun _ => 0) (2 ^ 64 - 1) = Tip5.digestOf (Tip5.apply_permutation
      ![(fun _ => (0 : F)) 0, (fun _ => (0 : F)) 1, (fun _ => (0 : F)) 2, (fun _ => (0 : F)) 3,
        (fun _ => (0 : F)) 4, ((2 ^ 64 - 1 : ℕ) : F),
        if (2 ^ 64 - 1 : ℕ) < P then 0 else 1, 0, 0, 0,
        if (2 ^ 64 - 1 : ℕ) < P then ((Tip5.DIGEST_SIZE + 1 : ℕ) : F)
          else ((Tip5.DIGEST_SIZE + 2 : ℕ) : F),
        0, 0, 0, 0, 0])) ∧
    (P ≤ (2 ^ 64 - 1 : ℕ) → (2 ^ 64 - 1 : ℕ) / P = 1) :=
  merge_with_int_layout (fun _ => 0) (fun _ => 0) (2 ^ 64 - 1) (by decide)

/-! ## The absorption loop of hash_elements, characterised -/

theorem tip5_absorb_eq : Tip5.hash_elements_absorb = absorbStepG 10 Tip5.apply_permutation := rfl

theorem tip4_absorb_eq : Tip4.hash_elements_absorb = absorbStepG 12 Tip4.apply_permutation := rfl

theorem tip4p_absorb_eq : Tip4p.hash_elements_absorb = absorbStepG 8 Tip4p.apply_permutation := rfl

theorem absorb_foldl {n : ℕ} [NeZero n] (R : ℕ) (perm : (Fin n → F) → (Fin n → F)) :
    ∀ (l : List F) (s : Fin n → F) (i : ℕ), i + l.length ≤ R → i < R →
      l.foldl (absorbStepG R perm) (s, i) =
        if 0 < l.length ∧ i + l.length = R then (perm (absorbInto s i l), 0)
        else (absorbInto s i l, i + l.length) := by
  intro l
  induction l with
  | nil =>
      intro s i h1 h2
      simp [absorbInto]
  | cons e t ih =>
      intro s i h1 h2
      simp only [List.foldl_cons, List.length_cons] at h1 ⊢
      by_cases hi : (i + 1) % R = 0
      · have hiR : i + 1 = R := by
          have hle : i + 1 ≤ R := by omega
          rcases Nat.lt_or_ge (i + 1) R with h | h
          · rw [Nat.mod_eq_of_lt h] at hi
            omega
          · omega
        have ht : t = [] := by
          have : t.length = 0 := by omega
          exact List.length_eq_zero.mp this
        subst ht
        show List.foldl (absorbStepG R perm) (absorbStepG R perm (s, i) e) [] = _
        rw [if_pos (by constructor <;> omega)]
        simp [absorbStepG, hi, absorbInto]
      · have hlt : i + 1 < R := by
          have hle : i + 1 ≤ R := by omega
          rcases Nat.lt_or_ge (i + 1) R with h | h
          · exact h
          · exfalso
            have : i + 1 = R := by omega
            rw [this, Nat.mod_self] at hi
            exact hi rfl
        show List.foldl (absorbStepG R perm) (absorbStepG R perm (s, i) e) t = _
        have hstep : absorbStepG R perm (s, i) e =
            (Function.update s (i : Fin n) (s (i : Fin n) + e), i + 1) := by
          simp [absorbStepG, hi]
        rw [hstep, ih _ (i + 1) (by omega) hlt]
        rcases Nat.eq_zero_or_pos t.length with h0 | h0
        · have ht : t = [] := List.length_eq_zero.mp h0
          subst ht
          simp only [List.length_nil] at *
          split_ifs
          all_goals first
            | (exfalso; omega)
            | simp [absorbInto]
        · show _ = if 0 < t.length + 1 ∧ i + (t.length + 1) = R then _ else _
          by_cases hc : i + 1 + t.length = R
          · rw [if_pos ⟨h0, hc⟩, if_pos ⟨by omega, by omega⟩]
            rfl
          · rw [if_neg (by omega), if_neg (by omega)]
            simp only [Prod.mk.injEq]
            exact ⟨rfl, by omega⟩

theorem tip5_he10 (d1 d2 : Tip5.Digest) :
    Tip5.hash_elements [d1 0, d1 1, d1 2, d1 3, d1 4, d2 0, d2 1, d2 2, d2 3, d2 4] =
      Tip5.digestOf (Tip5.apply_permutation (absorbInto
        (Tip5.hash_elements_init [d1 0, d1 1, d1 2, d1 3, d1 4, d2 0, d2 1, d2 2, d2 3, d2 4])
        0 [d1 0, d1 1, d1 2, d1 3, d1 4, d2 0, d2 1, d2 2, d2 3, d2 4])) := by
  have hfold := absorb_foldl 10 Tip5.apply_permutation
    [d1 0, d1 1, d1 2, d1 3, d1 4, d2 0, d2 1, d2 2, d2 3, d2 4]
    (Tip5.hash_elements_init [d1 0, d1 1, d1 2, d1 3, d1 4, d2 0, d2 1, d2 2, d2 3, d2 4])
    0 (by simp) (by norm_num)
  rw [if_pos (by simp)] at hfold
  simp only [Tip5.hash_elements, tip5_absorb_eq]
  rw [hfold]
  norm_num

theorem tip5_merge_eq_hash_elements (d1 d2 : Tip5.Digest) :
    Tip5.merge d1 d2 =
      Tip5.hash_elements [d1 0, d1 1, d1 2, d1 3, d1 4, d2 0, d2 1, d2 2, d2 3, d2 4] := by
  rw [tip5_he10]
  show Tip5.digestOf (Tip5.apply_permutation (Tip5.merge_init d1 d2)) = _
  have hstate : Tip5.merge_init d1 d2 = absorbInto
      (Tip5.hash_elements_init [d1 0, d1 1, d1 2, d1 3, d1 4, d2 0, d2 1, d2 2, d2 3, d2 4])
      0 [d1 0, d1 1, d1 2, d1 3, d1 4, d2 0, d2 1, d2 2, d2 3, d2 4] := by
    funext i
    fin_cases i <;>
      simp [absorbInto, Tip5.hash_elements_init, Tip5.merge_init, Tip5.CAPACITY_START,
        Tip5.RATE_WIDTH, Function.update_apply]
  rw [hstate]

theorem tip4p_he8 (f1 f2 : Tip4p.Digest) :
    Tip4p.hash_elements [f1 0, f1 1, f1 2, f1 3, f2 0, f2 1, f2 2, f2 3] =
      Tip4p.digestOf (Tip4p.apply_permutation (absorbInto
        (Tip4p.hash_elements_init [f1 0, f1 1, f1 2, f1 3, f2 0, f2 1, f2 2, f2 3])
        0 [f1 0, f1 1, f1 2, f1 3, f2 0, f2 1, f2 2, f2 3])) := by
  have hfold := absorb_foldl 8 Tip4p.apply_permutation
    [f1 0, f1 1, f1 2, f1 3, f2 0, f2 1, f2 2, f2 3]
    (Tip4p.hash_elements_init [f1 0, f1 1, f1 2, f1 3, f2 0, f2 1, f2 2, f2 3])
    0 (by simp) (by norm_num)
  rw [if_pos (by simp)] at hfold
  simp only [Tip4p.hash_elements, tip4p_absorb_eq]
  rw [hfold]
  norm_num

theorem tip4p_merge_eq_hash_elements (f1 f2 : Tip4p.Digest) :
    Tip4p.merge f1 f2 =
      Tip4p.hash_elements [f1 0, f1 1, f1 2, f1 3, f2 0, f2 1, f2 2, f2 3] := by
  rw [tip4p_he8]
  show Tip4p.digestOf (Tip4p.apply_permutation (Tip4p.merge_init f1 f2)) = _
  have hstate : Tip4p.merge_init f1 f2 = absorbInto
      (Tip4p.hash_elements_init [f1 0, f1 1, f1 2, f1 3, f2 0, f2 1, f2 2, f2 3])
      0 [f1 0, f1 1, f1 2, f1 3, f2 0, f2 1, f2 2, f2 3] := by
    funext i
    fin_cases i <;>
      simp [absorbInto, Tip4p.hash_elements_init, Tip4p.merge_init, Tip4p.CAPACITY_START,
        Tip4p.RATE_WIDTH, Function.update_apply]
  rw [hstate]

theorem tip4_he8 (g1 g2 : Tip4.Digest) :
    Tip4.hash_elements [g1 0, g1 1, g1 2, g1 3, g2 0, g2 1, g2 2, g2 3] =
      Tip4.digestOf (Tip4.apply_permutation (absorbInto
        (Tip4.hash_elements_init [g1 0, g1 1, g1 2, g1 3, g2 0, g2 1, g2 2, g2 3])
        0 [g1 0, g1 1, g1 2, g1 3, g2 0, g2 1, g2 2, g2 3])) := by
  have hfold := absorb_foldl 12 Tip4.apply_permutation
    [g1 0, g1 1, g1 2, g1 3, g2 0, g2 1, g2 2, g2 3]
    (Tip4.hash_elements_init [g1 0, g1 1, g1 2, g1 3, g2 0, g2 1, g2 2, g2 3])
    0 (by simp) (by norm_num)
  rw [if_neg (by norm_num)] at hfold
  simp only [Tip4.hash_elements, tip4_absorb_eq]
  rw [hfold]
  norm_num

theorem tip4_he8_state (g1 g2 : Tip4.Digest) :
    absorbInto (Tip4.hash_elements_init [g1 0, g1 1, g1 2, g1 3, g2 0, g2 1, g2 2, g2 3])
        0 [g1 0, g1 1, g1 2, g1 3, g2 0, g2 1, g2 2, g2 3] =
      ![g1 0, g1 1, g1 2, g1 3, g2 0, g2 1, g2 2, g2 3,
        0, 0, 0, 0, ((8 : ℕ) : F), 0, 0, 0] := by
  funext i
  fin_cases i <;> simp [absorbInto, Tip4.hash_elements_init, Tip4.CAPACITY_START,
    Function.update_apply] <;> rfl

/-- C9: for Tip5_320 and Tip4p_256 (whose rates are exactly twice the digest
size), merge of two digests coincides with hash_elements of their
concatenation: both fill the whole rate, write the tag RATE_WIDTH (equal to
the element count), and permute exactly once. For Tip4_256 the coincidence
fails: merge's pre-permutation state carries tag 12, while hash_elements of
the 8 concatenated elements permutes a state carrying tag 8. -/
theorem merge_hash_elements_coincidence
    (d1 d2 : Tip5.Digest) (f1 f2 : Tip4p.Digest) (g1 g2 : Tip4.Digest) :
    (Tip5.merge d1 d2 =
      Tip5.hash_elements [d1 0, d1 1, d1 2, d1 3, d1 4, d2 0, d2 1, d2 2, d2 3, d2 4]) ∧
    (Tip4p.merge f1 f2 =
      Tip4p.hash_elements [f1 0, f1 1, f1 2, f1 3, f2 0, f2 1, f2 2, f2 3]) ∧
    (Tip4.merge g1 g2 = Tip4.digestOf (Tip4.apply_permutation
      ![g1 0, g1 1, g1 2, g1 3, g2 0, g2 1, g2 2, g2 3,
        0, 0, 0, 0, (Tip4.RATE_WIDTH : F), 0, 0, 0])) ∧
    (Tip4.hash_elements [g1 0, g1 1, g1 2, g1 3, g2 0, g2 1, g2 2, g2 3] =
      Tip4.digestOf (Tip4.apply_permutation
        ![g1 0, g1 1, g1 2, g1 3, g2 0, g2 1, g2 2, g2 3,
          0, 0, 0, 0, ((8 : ℕ) : F), 0, 0, 0])) ∧
    ((Tip4.RATE_WIDTH : ℕ) : F) ≠ ((8 : ℕ) : F) := by
  refine ⟨tip5_merge_eq_hash_elements d1 d2, tip4p_merge_eq_hash_elements f1 f2, ?_, ?_, by decide⟩
  · show Tip4.digestOf (Tip4.apply_permutation (Tip4.merge_init g1 g2)) = _
    rw [tip4_merge_init_vec]
  · rw [tip4_he8, tip4_he8_state]

/-! ## AuxTraceRandElements -/

theorem aux_foldl_segments {E : Type} (segs : List (List E)) :
    ∀ init : AuxTraceRandElements E,
      (segs.foldl AuxTraceRandElements.add_segment_elements init).segments
        = init.segments ++ segs := by
  induction segs with
  | nil => intro init; simp
  | cons a t ih =>
      intro init
      simp only [List.foldl_cons]
      rw [ih]
      simp [AuxTraceRandElements.add_segment_elements]

theorem aux_build_segments {E : Type} (segs : List (List E)) :
    (AuxTraceRandElements.build segs).segments = segs := by
  have h := aux_foldl_segments segs (AuxTraceRandElements.new E)
  simpa [AuxTraceRandElements.build, AuxTraceRandElements.new] using h

/-- C10: for a container built from new() by a sequence of
add_segment_elements calls, get_segment_elements returns the i-th added
sequence (append order, earlier segments untouched by later appends) when i
is below the number of added segments, and is an index-out-of-range panic
(none) otherwise. -/
theorem aux_trace_rand_elements_get (E : Type) (segs : List (List E)) (i : ℕ) :
    (∀ h : i < segs.length,
      (AuxTraceRandElements.build segs).get_segment_elements i = some (segs.get ⟨i, h⟩)) ∧
    (segs.length ≤ i →
      (AuxTraceRandElements.build segs).get_segment_elements i = none) := by
  unfold AuxTraceRandElements.get_segment_elements
  rw [aux_build_segments]
  exact ⟨fun h => List.get?_eq_get h, fun h => List.get?_eq_none.mpr h⟩

theorem aux_trace_rand_elements_get_witness :
    (AuxTraceRandElements.build [[1], [2, 3]]).get_segment_elements 1 = some [2, 3] ∧
    (AuxTraceRandElements.build [[1], [2, 3]]).get_segment_elements 5 = none :=
  ⟨(aux_trace_rand_elements_get ℕ [[1], [2, 3]] 1).1 (by decide),
   (aux_trace_rand_elements_get ℕ [[1], [2, 3]] 5).2 (by decide)⟩


/-! ## The MDS kernel equals the naive matrix product (C1) -/

set_option maxRecDepth 4000 in
theorem mds_on_basis_col0 : ∀ i : Fin 16, mds_multiply (basisVec 0) i = MDS16 i 0 := by
  decide

set_option maxRecDepth 4000 in
theorem mds_on_basis_col1 : ∀ i : Fin 16, mds_multiply (basisVec 1) i = MDS16 i 1 := by
  decide

set_option maxRecDepth 4000 in
theorem mds_on_basis_col2 : ∀ i : Fin 16, mds_multiply (basisVec 2) i = MDS16 i 2 := by
  decide

set_option maxRecDepth 4000 in
theorem mds_on_basis_col3 : ∀ i : Fin 16, mds_multiply (basisVec 3) i = MDS16 i 3 := by
  decide

set_option maxRecDepth 4000 in
theorem mds_on_basis_col4 : ∀ i : Fin 16, mds_multiply (basisVec 4) i = MDS16 i 4 := by
  decide

set_option maxRecDepth 4000 in
theorem mds_on_basis_col5 : ∀ i : Fin 16, mds_multiply (basisVec 5) i = MDS16 i 5 := by
  decide

set_option maxRecDepth 4000 in
theorem mds_on_basis_col6 : ∀ i : Fin 16, mds_multiply (basisVec 6) i = MDS16 i 6 := by
  decide

set_option maxRecDepth 4000 in
theorem mds_on_basis_col7 : ∀ i : Fin 16, mds_multiply (basisVec 7) i = MDS16 i 7 := by
  decide

set_option maxRecDepth 4000 in
theorem mds_on_basis_col8 : ∀ i : Fin 16, mds_multiply (basisVec 8) i = MDS16 i 8 := by
  decide

set_option maxRecDepth 4000 in
theorem mds_on_basis_col9 : ∀ i : Fin 16, mds_multiply (basisVec 9) i = MDS16 i 9 := by
  decide

set_option maxRecDepth 4000 in
theorem mds_on_basis_col10 : ∀ i : Fin 16, mds_multiply (basisVec 10) i = MDS16 i 10 := by
  decide

set_option maxRecDepth 4000 in
theorem mds_on_basis_col11 : ∀ i : Fin 16, mds_multiply (basisVec 11) i = MDS16 i 11 := by
  decide

set_option maxRecDepth 4000 in
theorem mds_on_basis_col12 : ∀ i : Fin 16, mds_multiply (basisVec 12) i = MDS16 i 12 := by
  decide

set_option maxRecDepth 4000 in
theorem mds_on_basis_col13 : ∀ i : Fin 16, mds_multiply (basisVec 13) i = MDS16 i 13 := by
  decide

set_option maxRecDepth 4000 in
theorem mds_on_basis_col14 : ∀ i : Fin 16, mds_multiply (basisVec 14) i = MDS16 i 14 := by
  decide

set_option maxRecDepth 4000 in
theorem mds_on_basis_col15 : ∀ i : Fin 16, mds_multiply (basisVec 15) i = MDS16 i 15 := by
  decide

theorem mds_on_basis : ∀ (j i : Fin 16), mds_multiply (basisVec j) i = MDS16 i j := by
  intro j
  fin_cases j
  exacts [mds_on_basis_col0, mds_on_basis_col1, mds_on_basis_col2, mds_on_basis_col3, mds_on_basis_col4, mds_on_basis_col5, mds_on_basis_col6, mds_on_basis_col7, mds_on_basis_col8, mds_on_basis_col9, mds_on_basis_col10, mds_on_basis_col11, mds_on_basis_col12, mds_on_basis_col13, mds_on_basis_col14, mds_on_basis_col15]

theorem mds_multiply_zero : mds_multiply (fun _ => (0 : F)) = fun _ => 0 := by
  have h := mds_multiply_mul 0 (fun _ => (1 : F))
  simpa using h

theorem mds_multiply_finsum (s : Finset (Fin 16)) (f : Fin 16 → State16) :
    mds_multiply (fun i => ∑ j ∈ s, f j i) = fun i => ∑ j ∈ s, mds_multiply (f j) i := by
  classical
  induction s using Finset.induction with
  | empty => simpa using mds_multiply_zero
  | @insert a t ha ih =>
      have h1 : (fun i => ∑ j ∈ insert a t, f j i) = fun i => f a i + ∑ j ∈ t, f j i := by
        funext i; rw [Finset.sum_insert ha]
      rw [h1, mds_multiply_add, ih]
      funext i
      rw [Finset.sum_insert ha]

/-- C1: for every width-16 state, `mds_multiply` (forward no-swap NTT,
per-lane Montgomery shift by the fixed `SHIFTS` sequence, inverse no-swap
NTT) computes exactly the naive matrix-vector product with the fixed 16x16
circulant `MDS` constant shared by Tip4_256 and Tip5_320. -/
theorem mds_multiply_eq_naive (x : State16) (i : Fin 16) :
    mds_multiply x i = ∑ j, MDS16 i j * x j := by
  have hx : x = fun k => ∑ j, x j * basisVec j k := by
    funext k
    have h : ∑ j, x j * basisVec j k = x k := by
      simp [basisVec, mul_ite, mul_one, mul_zero, Finset.sum_ite_eq]
    rw [h]
  calc mds_multiply x i = mds_multiply (fun k => ∑ j, x j * basisVec j k) i := by rw [← hx]
    _ = ∑ j, mds_multiply (fun k => x j * basisVec j k) i :=
          congrFun (mds_multiply_finsum Finset.univ (fun j k => x j * basisVec j k)) i
    _ = ∑ j, x j * mds_multiply (basisVec j) i :=
          Finset.sum_congr rfl fun j _ => congrFun (mds_multiply_mul (x j) (basisVec j)) i
    _ = ∑ j, MDS16 i j * x j :=
          Finset.sum_congr rfl fun j _ => by rw [mds_on_basis j i, mul_comm]

end Tip
